import Mathlib

/-
  Verification of pgx-contrib-spiext.

  Shallow embedding of the crate's core pieces, translated from the source:
    - src/subtxn.rs      : the SubTransaction lifecycle manager
    - src/catch_error.rs : the error-catching boundary (catch_error)
    - src/error.rs       : Error / PostgresError and the ErrorData conversion
    - src/checked.rs     : checked_select / checked_update on sub-transaction handles

  The Host Engine (pg_sys) is modelled as an explicit state record threaded
  through every operation: a stack of open sub-transaction scopes, the current
  memory context and resource owner, the pending error state, and a trace of
  the nested-transaction primitives invoked.  Machine pointers (MemoryContext,
  ResourceOwner) are opaque Nat handles.  The engine's non-local failure signal
  (longjmp, surfaced by pgx as a Rust panic) is modelled as the `Except`
  error alternative carrying a panic payload.
-/

set_option linter.unusedVariables false

namespace Spiext

/-- Opaque handle to a Postgres memory context (`pg_sys::MemoryContext`). -/
abbrev MemoryContext := Nat

/-- Opaque handle to a Postgres resource owner (`pg_sys::ResourceOwner`). -/
abbrev ResourceOwner := Nat

/-- A possibly-null C string pointer, as the fields of `pg_sys::ErrorData` are. -/
inductive CStrPtr
  | null
  | valid (s : String)
  deriving DecidableEq, Repr

namespace pg_sys

/- Severity constants from Postgres elog.h (numeric values for pg13). -/

def DEBUG5 : Nat := 10

def DEBUG4 : Nat := 11

def DEBUG3 : Nat := 12

def DEBUG2 : Nat := 13

def DEBUG1 : Nat := 14

def LOG : Nat := 15

def LOG_SERVER_ONLY : Nat := 16

def INFO : Nat := 17

def NOTICE : Nat := 18

def WARNING : Nat := 19

def ERROR : Nat := 20

def FATAL : Nat := 21

def PANIC : Nat := 22

/-- `pg_sys::ErrorData`: the raw engine error record (fields used by error.rs,
    in the pg13 configuration: `show_funcname` and `backtrace` present). -/
structure ErrorData where
  elevel : Nat
  output_to_server : Bool
  output_to_client : Bool
  show_funcname : Bool
  hide_stmt : Bool
  hide_ctx : Bool
  filename : CStrPtr
  lineno : Nat
  funcname : CStrPtr
  domain : CStrPtr
  context_domain : CStrPtr
  sqlerrcode : Nat
  message : CStrPtr
  detail : CStrPtr
  detail_log : CStrPtr
  hint : CStrPtr
  context : CStrPtr
  backtrace : CStrPtr
  message_id : CStrPtr
  schema_name : CStrPtr
  table_name : CStrPtr
  column_name : CStrPtr
  datatype_name : CStrPtr
  constraint_name : CStrPtr
  cursorpos : Nat
  internalpos : Nat
  internalquery : CStrPtr
  saved_errno : Nat
  assoc_context : MemoryContext
  deriving DecidableEq, Repr

/-- An all-null / zero `ErrorData`, used only as the `Inhabited` default. -/
def ErrorData.blank : ErrorData :=
  { elevel := 0, output_to_server := false, output_to_client := false
    show_funcname := false, hide_stmt := false, hide_ctx := false
    filename := .null, lineno := 0, funcname := .null, domain := .null
    context_domain := .null, sqlerrcode := 0, message := .null, detail := .null
    detail_log := .null, hint := .null, context := .null, backtrace := .null
    message_id := .null, schema_name := .null, table_name := .null
    column_name := .null, datatype_name := .null, constraint_name := .null
    cursorpos := 0, internalpos := 0, internalquery := .null, saved_errno := 0
    assoc_context := 0 }

instance : Inhabited ErrorData := ⟨ErrorData.blank⟩

end pg_sys

/-- `pgx::log::PgLogLevel`. -/
inductive PgLogLevel
  | DEBUG5
  | DEBUG4
  | DEBUG3
  | DEBUG2
  | DEBUG1
  | LOG
  | LOG_SERVER_ONLY
  | INFO
  | NOTICE
  | WARNING
  | ERROR
  | FATAL
  | PANIC
  deriving DecidableEq, Repr

/-- The severity translation: the `match error.elevel as u32` arms of
    `From<&pg_sys::ErrorData> for PostgresError` in error.rs, in source order.
    The wildcard arm maps any unrecognized severity to `ERROR`. -/
def elevelOf (n : Nat) : PgLogLevel :=
  if n = pg_sys.DEBUG5 then .DEBUG5
  else if n = pg_sys.DEBUG4 then .DEBUG5
  else if n = pg_sys.DEBUG3 then .DEBUG5
  else if n = pg_sys.DEBUG2 then .DEBUG5
  else if n = pg_sys.DEBUG1 then .DEBUG5
  else if n = pg_sys.LOG then .LOG
  else if n = pg_sys.LOG_SERVER_ONLY then .LOG_SERVER_ONLY
  else if n = pg_sys.INFO then .INFO
  else if n = pg_sys.NOTICE then .NOTICE
  else if n = pg_sys.WARNING then .WARNING
  else if n = pg_sys.ERROR then .ERROR
  else if n = pg_sys.FATAL then .FATAL
  else if n = pg_sys.PANIC then .PANIC
  else .ERROR

/-- `to_str` from error.rs: a null pointer becomes `None`, otherwise the
    string is copied out. -/
def to_str : CStrPtr → Option String
  | .null => none
  | .valid s => some s

/-- `PostgresError` from error.rs (pg13 configuration). -/
structure PostgresError where
  elevel : PgLogLevel
  output_to_server : Bool
  output_to_client : Bool
  show_funcname : Bool
  hide_stmt : Bool
  hide_ctx : Bool
  filename : Option String
  lineno : Nat
  funcname : Option String
  domain : Option String
  context_domain : Option String
  sqlerrcode : Nat
  message : Option String
  detail : Option String
  detail_log : Option String
  hint : Option String
  context : Option String
  backtrace : Option String
  message_id : Option String
  schema_name : Option String
  table_name : Option String
  column_name : Option String
  datatype_name : Option String
  constraint_name : Option String
  cursorpos : Nat
  internalpos : Nat
  internalquery : Option String
  saved_errno : Nat
  assoc_context : MemoryContext
  deriving DecidableEq, Repr

/-- `impl From<&pg_sys::ErrorData> for PostgresError` (error.rs), field by field. -/
def PostgresError.fromErrorData (error : pg_sys.ErrorData) : PostgresError :=
  { elevel := elevelOf error.elevel
    output_to_server := error.output_to_server
    output_to_client := error.output_to_client
    show_funcname := error.show_funcname
    hide_stmt := error.hide_stmt
    hide_ctx := error.hide_ctx
    filename := to_str error.filename
    lineno := error.lineno
    funcname := to_str error.funcname
    domain := to_str error.domain
    context_domain := to_str error.context_domain
    sqlerrcode := error.sqlerrcode
    message := to_str error.message
    detail := to_str error.detail
    detail_log := to_str error.detail_log
    hint := to_str error.hint
    context := to_str error.context
    backtrace := to_str error.backtrace
    message_id := to_str error.message_id
    schema_name := to_str error.schema_name
    table_name := to_str error.table_name
    column_name := to_str error.column_name
    datatype_name := to_str error.datatype_name
    constraint_name := to_str error.constraint_name
    cursorpos := error.cursorpos
    internalpos := error.internalpos
    internalquery := to_str error.internalquery
    saved_errno := error.saved_errno
    assoc_context := error.assoc_context }

/-- The nested-transaction primitives the crate invokes on the Host Engine;
    recorded as a trace so that "how many releases were executed" is observable. -/
inductive EngineOp
  | beginTx
  | commitRelease
  | rollbackRelease
  deriving DecidableEq, Repr

/-- Is this engine operation a release (commit or rollback) of a sub-transaction? -/
def EngineOp.isRelease : EngineOp → Bool
  | .beginTx => false
  | .commitRelease => true
  | .rollbackRelease => true

/-- One open sub-transaction scope on the engine's stack: its own transaction
    memory context and the rows inserted in it (not yet merged into a parent). -/
structure Scope where
  ctx : MemoryContext
  rows : List Nat
  deriving DecidableEq, Repr

/-- The Host Engine state (the `pg_sys` globals used by the crate). `scopes`
    is the stack of open sub-transactions, innermost first; `base` holds rows
    visible outside any open sub-transaction. -/
structure Engine where
  currentMemoryContext : MemoryContext
  currentResourceOwner : ResourceOwner
  nextId : Nat
  base : List Nat
  scopes : List Scope
  pendingError : Option pg_sys.ErrorData
  trace : List EngineOp
  deriving DecidableEq, Repr

/-- Rows visible to a query right now: the base plus every open scope,
    outermost first. -/
def Engine.visibleRows (e : Engine) : List Nat :=
  e.base ++ ((e.scopes.map Scope.rows).reverse).flatten

/-- Number of sub-transaction releases (commit or rollback) executed so far. -/
def Engine.releaseCount (e : Engine) : Nat :=
  e.trace.countP (fun op => EngineOp.isRelease op)

/-- `pg_sys::BeginInternalSubTransaction`: push a fresh scope; the engine
    switches both the current memory context and the current resource owner to
    the new sub-transaction's own (fresh handles). -/
def Engine.beginInternalSubTransaction (e : Engine) : Engine :=
  { e with scopes := ⟨e.nextId, []⟩ :: e.scopes
           currentMemoryContext := e.nextId
           currentResourceOwner := e.nextId
           nextId := e.nextId + 1
           trace := e.trace ++ [.beginTx] }

/-- `pg_sys::ReleaseCurrentSubTransaction`: pop the innermost scope and merge
    its effects into the enclosing scope (or into the base when it was the
    outermost open scope).  The engine's own switch of the current owner and
    context on pop is omitted: in the crate every call site immediately
    overwrites both with the values captured at handle creation. -/
def Engine.releaseCurrentSubTransaction (e : Engine) : Engine :=
  match e.scopes with
  | [] => { e with trace := e.trace ++ [.commitRelease] }
  | s :: [] =>
      { e with base := e.base ++ s.rows, scopes := []
               trace := e.trace ++ [.commitRelease] }
  | s :: t :: rest =>
      { e with scopes := { t with rows := t.rows ++ s.rows } :: rest
               trace := e.trace ++ [.commitRelease] }

/-- `pg_sys::RollbackAndReleaseCurrentSubTransaction`: pop the innermost scope
    and discard its effects (they are undone transitively). -/
def Engine.rollbackAndReleaseCurrentSubTransaction (e : Engine) : Engine :=
  { e with scopes := e.scopes.tail, trace := e.trace ++ [.rollbackRelease] }

/-- `pg_sys::FlushErrorState`: clear the engine's pending-error state. -/
def Engine.flushErrorState (e : Engine) : Engine :=
  { e with pendingError := none }

/-- `pg_sys::CopyErrorData`: copy the pending error record out of the error
    context.  Callable only while a failure signal is being handled, so the
    pending state is populated; the default is never reached in the theorems. -/
def Engine.copyErrorData (e : Engine) : pg_sys.ErrorData :=
  e.pendingError.getD default

/-- The innermost open sub-transaction's own memory context
    (`PgMemoryContexts::CurTransactionContext`). -/
def Engine.curTransactionContext (e : Engine) : MemoryContext :=
  match e.scopes with
  | [] => 0
  | s :: _ => s.ctx

/-- `PgMemoryContexts::For(ctx).set_as_current()`. -/
def Engine.setCurrentMemoryContext (e : Engine) (ctx : MemoryContext) : Engine :=
  { e with currentMemoryContext := ctx }

/-- `SubTransaction<Parent, COMMIT>` from subtxn.rs.  The const generic
    `COMMIT` is the Bool index; catch_error.rs names the `should_release`
    field `drop` (an earlier revision of the same struct) — the two files'
    flag is modelled as this single field. -/
structure SubTransaction (Parent : Type) (COMMIT : Bool) where
  memory_context : MemoryContext
  resource_owner : ResourceOwner
  should_release : Bool
  parent : Option Parent

/-- `SubTransaction::new` (subtxn.rs): snapshot the current memory context and
    resource owner, begin a nested transaction on the engine, then restore the
    snapshotted memory context as current. -/
def SubTransaction.new {P : Type} (c : Bool) (parent : P) (e : Engine) :
    SubTransaction P c × Engine :=
  let ctx := e.currentMemoryContext
  let resource_owner := e.currentResourceOwner
  let e1 := e.beginInternalSubTransaction
  let e2 := e1.setCurrentMemoryContext ctx
  (⟨ctx, resource_owner, true, some parent⟩, e2)

/-- `SubTransaction::internal_rollback`: roll back and release the current
    sub-transaction, then restore the captured resource owner and memory
    context. -/
def SubTransaction.internal_rollback {P : Type} {c : Bool}
    (h : SubTransaction P c) (e : Engine) : Engine :=
  let e1 := e.rollbackAndReleaseCurrentSubTransaction
  { e1 with currentResourceOwner := h.resource_owner
            currentMemoryContext := h.memory_context }

/-- `SubTransaction::internal_commit`: release (commit) the current
    sub-transaction, then restore the captured resource owner and memory
    context. -/
def SubTransaction.internal_commit {P : Type} {c : Bool}
    (h : SubTransaction P c) (e : Engine) : Engine :=
  let e1 := e.releaseCurrentSubTransaction
  { e1 with currentResourceOwner := h.resource_owner
            currentMemoryContext := h.memory_context }

/-- `impl Drop for SubTransaction` (subtxn.rs): if `should_release` is still
    true, execute the default action (`COMMIT` decides commit vs rollback);
    otherwise touch nothing. -/
def SubTransaction.drop {P : Type} (c : Bool) (h : SubTransaction P c)
    (e : Engine) : Engine :=
  if h.should_release then
    if c then h.internal_commit e else h.internal_rollback e
  else e

/-- `SubTransaction::commit`: engine commit, set `should_release := false`,
    take the parent out; the consumed handle is then dropped (inert, since the
    flag is now false). -/
def SubTransaction.commit {P : Type} (c : Bool) (h : SubTransaction P c)
    (e : Engine) : Option P × Engine :=
  let e1 := h.internal_commit e
  let final : SubTransaction P c :=
    { h with should_release := false, parent := none }
  (h.parent, SubTransaction.drop c final e1)

/-- `SubTransaction::rollback`: engine rollback, set `should_release := false`,
    take the parent out; the consumed handle is then dropped (inert). -/
def SubTransaction.rollback {P : Type} (c : Bool) (h : SubTransaction P c)
    (e : Engine) : Option P × Engine :=
  let e1 := h.internal_rollback e
  let final : SubTransaction P c :=
    { h with should_release := false, parent := none }
  (h.parent, SubTransaction.drop c final e1)

/-- `impl Into<SubTransaction<Parent, false>> for SubTransaction<Parent, true>`
    (`rollback_on_drop`): build the new handle from the same inner state,
    taking the parent, then force the source's `should_release` to false.
    Returns (converted handle, final state of the consumed source). -/
def SubTransaction.rollback_on_drop {P : Type} (h : SubTransaction P true) :
    SubTransaction P false × SubTransaction P true :=
  (⟨h.memory_context, h.resource_owner, h.should_release, h.parent⟩,
   { h with parent := none, should_release := false })

/-- `impl Into<SubTransaction<Parent, true>> for SubTransaction<Parent, false>`
    (`commit_on_drop`): the symmetric conversion. -/
def SubTransaction.commit_on_drop {P : Type} (h : SubTransaction P false) :
    SubTransaction P true × SubTransaction P false :=
  (⟨h.memory_context, h.resource_owner, h.should_release, h.parent⟩,
   { h with parent := none, should_release := false })

/-- The payload of a caught native unwind: either the engine's non-local
    failure signal (pgx `JumpContext`; the structured report travels with it
    and is also left in the engine's pending-error state), or an unrelated
    native panic, opaque (`Box<dyn Any>` modelled as a Nat token). -/
inductive Payload
  | jump (d : pg_sys.ErrorData)
  | native (n : Nat)
  deriving DecidableEq, Repr

/-- `Error` from error.rs: a Postgres-originating or a Rust-originating error. -/
inductive Error
  | PG (err : PostgresError)
  | Rust (payload : Nat)
  deriving DecidableEq, Repr

/-- `Error::into_postgres_error` (error.rs): return the `PostgresError` for
    `Error::PG`; for `Error::Rust` re-raise the native payload unchanged via
    `resume_unwind` (modelled as the error alternative carrying the payload). -/
def Error.into_postgres_error : Error → Except Nat PostgresError
  | .PG err => .ok err
  | .Rust payload => .error payload

/-- A query submitted to the Command Executor (SPI).  `selectAll` reads the
    visible rows; `insertRow` adds a row to the innermost open scope; `bad`
    is any command the engine rejects: it raises the non-local failure signal
    carrying the error record and leaves that record pending. -/
inductive Query
  | selectAll
  | insertRow (v : Nat)
  | bad (d : pg_sys.ErrorData)
  deriving DecidableEq, Repr

/-- Add a row to the innermost open scope (or to the base when none is open). -/
def Engine.insertRow (e : Engine) (v : Nat) : Engine :=
  match e.scopes with
  | [] => { e with base := e.base ++ [v] }
  | s :: rest => { e with scopes := { s with rows := s.rows ++ [v] } :: rest }

/-- The Command Executor (`SpiClient::select` / `SpiClient::update`, reached
    through the handle's Deref): external collaborator, modelled at its
    interface — it returns a row set or raises the engine failure signal. -/
def execQuery (q : Query) (e : Engine) : Except Payload (List Nat) × Engine :=
  match q with
  | .selectAll => (.ok e.visibleRows, e)
  | .insertRow v => (.ok [], e.insertRow v)
  | .bad d => (.error (.jump d), { e with pendingError := some d })

/-- `pgx::pg_sys::panic::CaughtError` (the error type of checked.rs):
    a structured Postgres error or a native Rust panic. -/
inductive CaughtError
  | PostgresError (d : pg_sys.ErrorData)
  | RustPanic (payload : Nat)
  deriving DecidableEq, Repr

/-- `PgTryBuilder::new(body).catch_others(|e| Err(e)).execute()` from pgx
    (external collaborator, modelled at its interface): run the body under a
    catch of the native unwind; classify the engine's failure signal as a
    structured `PostgresError` (the caught engine error's pending state is
    cleared before the handler result is returned) and anything else as a
    `RustPanic`. -/
def pgTryCatchOthers {A : Type} (body : Engine → Except Payload A × Engine)
    (e : Engine) : Except CaughtError A × Engine :=
  match body e with
  | (.ok a, e1) => (.ok a, e1)
  | (.error (.jump d), e1) => (.error (.PostgresError d), e1.flushErrorState)
  | (.error (.native n), e1) => (.error (.RustPanic n), e1)

/-- `checked_select` for `SubTransaction<Parent, false>` (checked.rs): run the
    select inside `PgTryBuilder`; the handle is moved into the closure, so when
    the command raises the failure signal the unwind drops the handle — a
    rollback-on-drop handle, so its whole scope is rolled back and released. -/
def checkedSelectR {P : Type} (h : SubTransaction P false) (q : Query)
    (e : Engine) :
    Except CaughtError (List Nat × SubTransaction P false) × Engine :=
  pgTryCatchOthers
    (fun e0 =>
      match execQuery q e0 with
      | (.ok rows, e1) => (.ok (rows, h), e1)
      | (.error p, e1) => (.error p, SubTransaction.drop false h e1))
    e

/-- `checked_select` for `SubTransaction<Parent, true>` (checked.rs): convert
    to rollback-on-drop, run the rollback-variant checked select, convert a
    successful result back to commit-on-drop.  The consumed sources of both
    conversions are dropped (inert, since conversion disarms them). -/
def checkedSelectC {P : Type} (h : SubTransaction P true) (q : Query)
    (e : Engine) :
    Except CaughtError (List Nat × SubTransaction P true) × Engine :=
  let conv := SubTransaction.rollback_on_drop h
  let e0 := SubTransaction.drop true conv.2 e
  match checkedSelectR conv.1 q e0 with
  | (.ok (rows, xact), e1) =>
      let conv2 := SubTransaction.commit_on_drop xact
      (.ok (rows, conv2.1), SubTransaction.drop false conv2.2 e1)
  | (.error err, e1) => (.error err, e1)

/-- `checked_update` for `SubTransaction<Parent, false>` (checked.rs): same
    shape as `checkedSelectR`; the source distinguishes read-only from mutable
    commands only through the SPI call used, which the executor model merges. -/
def checkedUpdateR {P : Type} (h : SubTransaction P false) (q : Query)
    (e : Engine) :
    Except CaughtError (List Nat × SubTransaction P false) × Engine :=
  pgTryCatchOthers
    (fun e0 =>
      match execQuery q e0 with
      | (.ok rows, e1) => (.ok (rows, h), e1)
      | (.error p, e1) => (.error p, SubTransaction.drop false h e1))
    e

/-- `checked_update` for `SubTransaction<Parent, true>` (checked.rs). -/
def checkedUpdateC {P : Type} (h : SubTransaction P true) (q : Query)
    (e : Engine) :
    Except CaughtError (List Nat × SubTransaction P true) × Engine :=
  let conv := SubTransaction.rollback_on_drop h
  let e0 := SubTransaction.drop true conv.2 e
  match checkedUpdateR conv.1 q e0 with
  | (.ok (rows, xact), e1) =>
      let conv2 := SubTransaction.commit_on_drop xact
      (.ok (rows, conv2.1), SubTransaction.drop false conv2.2 e1)
  | (.error err, e1) => (.error err, e1)

/-- `SubTransaction::internal_clone` (catch_error.rs): disarm the original
    handle's auto-release flag and hand the saved flag to an auxiliary
    `SubTransaction<()>` over the same scope.  Returns
    (auxiliary handle, original handle with its flag disarmed). -/
def SubTransaction.internal_clone {P : Type} (h : SubTransaction P true) :
    SubTransaction Unit true × SubTransaction P true :=
  (⟨h.memory_context, h.resource_owner, h.should_release, some ()⟩,
   { h with should_release := false })

/-- `catch_error` (catch_error.rs).  Take the auxiliary clone, run `try_func`
    under `catch_unwind`; on success restore the returned handle's flag from
    the auxiliary and disarm the auxiliary (dropped inert at return); on the
    engine's failure signal switch to the transaction context, copy the pending
    error record out, flush the error state, and roll the auxiliary back; on an
    unrelated native panic wrap it as `Error::Rust` (the auxiliary is dropped
    at return still carrying the saved flag). -/
def catch_error {P R : Type}
    (subtxn : SubTransaction P true)
    (try_func : SubTransaction P true → Engine →
      Except Payload (R × SubTransaction P true) × Engine)
    (e : Engine) :
    Except Error (R × SubTransaction P true) × Engine :=
  let cl := SubTransaction.internal_clone subtxn
  let aux := cl.1
  match try_func cl.2 e with
  | (.ok (result, xact), e1) =>
      let xact1 : SubTransaction P true :=
        { xact with should_release := aux.should_release }
      let aux1 : SubTransaction Unit true :=
        { aux with should_release := false }
      (.ok (result, xact1), SubTransaction.drop true aux1 e1)
  | (.error p, e1) =>
      match p with
      | .jump _ =>
          let e2 := e1.setCurrentMemoryContext e1.curTransactionContext
          let error_data := e2.copyErrorData
          let err := Error.PG (PostgresError.fromErrorData error_data)
          let e3 := e2.flushErrorState
          let e4 := (SubTransaction.rollback true aux e3).2
          (.error err, e4)
      | .native n =>
          (.error (Error.Rust n), SubTransaction.drop true aux e1)

/- Concrete scenario used by the witnesses and the counterexample: a fresh
   engine, a scope begun on it, and one row inserted inside that scope. -/

/-- A fresh engine: no open scope, no pending error, empty trace. -/
def e0 : Engine := ⟨0, 0, 1, [], [], none, []⟩

/-- A commit-on-drop handle over a Unit parent, as `new` builds it on `e0`. -/
def h0 : SubTransaction Unit true := ⟨0, 0, true, some ()⟩

/-- The engine after `SubTransaction::new` on `e0`. -/
def eOpened : Engine := (SubTransaction.new true () e0).2

/-- The engine after additionally inserting row 42 inside the open scope. -/
def eInserted : Engine := (execQuery (.insertRow 42) eOpened).2

/-- A concrete engine error record (a syntax error, severity ERROR). -/
def d0 : pg_sys.ErrorData :=
  { pg_sys.ErrorData.blank with
    elevel := pg_sys.ERROR
    message := .valid "syntax error at or near SLECT"
    output_to_client := true }

/-- An operation that raises the engine failure signal, leaving the error
    record pending (the shape `catch_error`'s jump branch expects). -/
def tfJump : SubTransaction Unit true → Engine →
    Except Payload (Unit × SubTransaction Unit true) × Engine :=
  fun _ en => (.error (.jump d0), { en with pendingError := some d0 })

/-- An operation that raises an unrelated native panic (payload token 7). -/
def tfNative : SubTransaction Unit true → Engine →
    Except Payload (Unit × SubTransaction Unit true) × Engine :=
  fun _ en => (.error (.native 7), en)

/-- An operation that succeeds, returning its handle and the engine unchanged. -/
def tfOk : SubTransaction Unit true → Engine →
    Except Payload (Unit × SubTransaction Unit true) × Engine :=
  fun h en => (.ok ((), h), en)

/- Helper lemmas shared by the claim theorems. -/

theorem releaseCurrent_trace (e : Engine) :
    e.releaseCurrentSubTransaction.trace = e.trace ++ [EngineOp.commitRelease] := by
  unfold Engine.releaseCurrentSubTransaction
  rcases e.scopes with _ | ⟨s, _ | ⟨t, rest⟩⟩ <;> rfl

theorem internal_commit_releaseCount {P : Type} {c : Bool}
    (h : SubTransaction P c) (e : Engine) :
    (h.internal_commit e).releaseCount = e.releaseCount + 1 := by
  simp [SubTransaction.internal_commit, Engine.releaseCount, releaseCurrent_trace,
        List.countP_append, EngineOp.isRelease]

theorem internal_rollback_releaseCount {P : Type} {c : Bool}
    (h : SubTransaction P c) (e : Engine) :
    (h.internal_rollback e).releaseCount = e.releaseCount + 1 := by
  simp [SubTransaction.internal_rollback, Engine.releaseCount,
        Engine.rollbackAndReleaseCurrentSubTransaction,
        List.countP_append, EngineOp.isRelease]

/-- C1: for every sub-transaction handle, at most one of explicit commit,
explicit rollback, and the scope-exit drop finalizer ever executes a release
against the engine: `commit` and `rollback` disarm the consumed handle before
its terminal drop (so their engine effect is exactly the one release performed
by `internal_commit` / `internal_rollback`), and the drop finalizer performs a
release only when `should_release` is still true, so no handle is finalized
twice. -/
theorem subtransaction_release_at_most_once {P : Type} (c : Bool)
    (h : SubTransaction P c) (e : Engine) :
    (SubTransaction.commit c h e).2 = h.internal_commit e
  ∧ (SubTransaction.rollback c h e).2 = h.internal_rollback e
  ∧ (h.internal_commit e).releaseCount = e.releaseCount + 1
  ∧ (h.internal_rollback e).releaseCount = e.releaseCount + 1
  ∧ (h.should_release = false → SubTransaction.drop c h e = e)
  ∧ (h.should_release = true →
      (SubTransaction.drop c h e).releaseCount = e.releaseCount + 1) := by
  refine ⟨?_, ?_, internal_commit_releaseCount h e,
          internal_rollback_releaseCount h e, ?_, ?_⟩
  · simp [SubTransaction.commit, SubTransaction.drop]
  · simp [SubTransaction.rollback, SubTransaction.drop]
  · intro hf; simp [SubTransaction.drop, hf]
  · intro ht
    cases c <;>
      simp [SubTransaction.drop, ht, internal_commit_releaseCount,
            internal_rollback_releaseCount]

/-- Witness for C1 at a concrete handle and engine. -/
theorem subtransaction_release_at_most_once_witness :
    (SubTransaction.drop true h0 e0).releaseCount = e0.releaseCount + 1
  ∧ (SubTransaction.commit true h0 e0).2 = h0.internal_commit e0 :=
  ⟨(subtransaction_release_at_most_once true h0 e0).2.2.2.2.2 rfl,
   (subtransaction_release_at_most_once true h0 e0).1⟩

/-- C4: converting a handle's default action (`rollback_on_drop` /
`commit_on_drop`) produces a new handle with the same memory context, resource
owner, `should_release` flag and parent (the opposite default action is the
flipped Bool index of the result type); the source handle is forced to
`should_release = false`, so dropping the original performs no engine
operation, and only the converted handle's scope exit fires the finalizer. -/
theorem convert_default_action_disarms_source {P : Type}
    (h : SubTransaction P true) (h' : SubTransaction P false) (e : Engine) :
    ((SubTransaction.rollback_on_drop h).1.memory_context = h.memory_context
      ∧ (SubTransaction.rollback_on_drop h).1.resource_owner = h.resource_owner
      ∧ (SubTransaction.rollback_on_drop h).1.should_release = h.should_release
      ∧ (SubTransaction.rollback_on_drop h).1.parent = h.parent)
  ∧ (SubTransaction.rollback_on_drop h).2.should_release = false
  ∧ SubTransaction.drop true (SubTransaction.rollback_on_drop h).2 e = e
  ∧ (h.should_release = true →
      (SubTransaction.drop false (SubTransaction.rollback_on_drop h).1 e).releaseCount
        = e.releaseCount + 1)
  ∧ ((SubTransaction.commit_on_drop h').1.memory_context = h'.memory_context
      ∧ (SubTransaction.commit_on_drop h').1.resource_owner = h'.resource_owner
      ∧ (SubTransaction.commit_on_drop h').1.should_release = h'.should_release
      ∧ (SubTransaction.commit_on_drop h').1.parent = h'.parent)
  ∧ (SubTransaction.commit_on_drop h').2.should_release = false
  ∧ SubTransaction.drop false (SubTransaction.commit_on_drop h').2 e = e := by
  refine ⟨⟨rfl, rfl, rfl, rfl⟩, rfl, ?_, ?_, ⟨rfl, rfl, rfl, rfl⟩, rfl, ?_⟩
  · simp [SubTransaction.drop, SubTransaction.rollback_on_drop]
  · intro ht
    simp [SubTransaction.drop, SubTransaction.rollback_on_drop, ht,
          internal_rollback_releaseCount]
  · simp [SubTransaction.drop, SubTransaction.commit_on_drop]

/-- Witness for C4 at a concrete handle and engine. -/
theorem convert_default_action_disarms_source_witness :
    SubTransaction.drop true (SubTransaction.rollback_on_drop h0).2 e0 = e0
  ∧ (SubTransaction.drop false (SubTransaction.rollback_on_drop h0).1 e0).releaseCount
      = e0.releaseCount + 1 :=
  ⟨(convert_default_action_disarms_source h0 ⟨0, 0, true, some ()⟩ e0).2.2.1,
   (convert_default_action_disarms_source h0 ⟨0, 0, true, some ()⟩ e0).2.2.2.1 rfl⟩

/-- C7: commit tells the engine to release (commit) the nested transaction,
restores the resource owner and memory context captured at creation as
current, disarms the consumed handle (its terminal drop performs nothing), and
returns the stored parent; composed with `new`, the post-commit current
resource owner and memory context equal the values captured at creation. -/
theorem commit_restores_captured_state {P : Type} (c : Bool)
    (h : SubTransaction P c) (p : P) (e e0' e1 : Engine) :
    (SubTransaction.commit c h e).1 = h.parent
  ∧ (SubTransaction.commit c h e).2 = h.internal_commit e
  ∧ (SubTransaction.commit c h e).2.trace = e.trace ++ [EngineOp.commitRelease]
  ∧ (SubTransaction.commit c h e).2.currentResourceOwner = h.resource_owner
  ∧ (SubTransaction.commit c h e).2.currentMemoryContext = h.memory_context
  ∧ (SubTransaction.commit c ((SubTransaction.new c p e0').1) e1).2.currentResourceOwner
      = e0'.currentResourceOwner
  ∧ (SubTransaction.commit c ((SubTransaction.new c p e0').1) e1).2.currentMemoryContext
      = e0'.currentMemoryContext := by
  refine ⟨rfl, ?_, ?_, ?_, ?_, ?_, ?_⟩ <;>
    simp [SubTransaction.commit, SubTransaction.drop, SubTransaction.internal_commit,
          SubTransaction.new, releaseCurrent_trace]

/-- C8: creating a handle snapshots the ambient memory context and resource
owner, instructs the engine to begin a nested transaction (a fresh scope is
pushed), then restores the snapshotted memory context as current, stores the
parent, and arms `should_release`. -/
theorem new_snapshots_and_restores_context {P : Type} (c : Bool) (p : P)
    (e : Engine) :
    (SubTransaction.new c p e).1.memory_context = e.currentMemoryContext
  ∧ (SubTransaction.new c p e).1.resource_owner = e.currentResourceOwner
  ∧ (SubTransaction.new c p e).1.should_release = true
  ∧ (SubTransaction.new c p e).1.parent = some p
  ∧ (SubTransaction.new c p e).2.trace = e.trace ++ [EngineOp.beginTx]
  ∧ (SubTransaction.new c p e).2.scopes = ⟨e.nextId, []⟩ :: e.scopes
  ∧ (SubTransaction.new c p e).2.currentMemoryContext = e.currentMemoryContext := by
  refine ⟨rfl, rfl, rfl, rfl, ?_, ?_, ?_⟩ <;>
    simp [SubTransaction.new, Engine.beginInternalSubTransaction,
          Engine.setCurrentMemoryContext]

/-- C9: converting a commit-on-drop handle to rollback-on-drop and back yields
a handle whose memory context, resource owner, `should_release` flag and
parent are identical to the original's — the round-trip is the identity on the
inner state; consequently a successful checked command on a commit-on-drop
handle returns exactly the original handle. -/
theorem default_action_roundtrip_identity {P : Type} (h : SubTransaction P true)
    (q : Query) (e e' : Engine) (rows : List Nat)
    (hq : execQuery q e = (.ok rows, e')) :
    (SubTransaction.commit_on_drop (SubTransaction.rollback_on_drop h).1).1 = h
  ∧ checkedSelectC h q e = (.ok (rows, h), e') := by
  constructor
  · rfl
  · simp [checkedSelectC, checkedSelectR, pgTryCatchOthers, hq,
          SubTransaction.drop, SubTransaction.rollback_on_drop,
          SubTransaction.commit_on_drop]

/-- Witness for C9 at a concrete handle, query and engine. -/
theorem default_action_roundtrip_identity_witness :
    checkedSelectC h0 Query.selectAll e0 = (.ok ([], h0), e0) :=
  (default_action_roundtrip_identity h0 Query.selectAll e0 e0 [] rfl).2

/-- C2 counterexample: begin a scope, insert row 42 inside it, then run
`checked_select` with a rejected query on the scope's own handle.  The
structured error is returned, but — contrary to the claim — the scope is not
live afterwards (the engine's sub-transaction stack is empty) and the row
inserted in the scope before the failing call is no longer visible: the
failing command dropped the moved-in rollback-on-drop handle during the
unwind, rolling back and releasing the handle's whole scope. -/
theorem checked_command_failure_counterexample :
    42 ∈ eInserted.visibleRows
  ∧ (checkedSelectC h0 (.bad d0) eInserted).1
      = .error (.PostgresError d0)
  ∧ (checkedSelectC h0 (.bad d0) eInserted).2.scopes = []
  ∧ (checkedSelectC h0 (.bad d0) eInserted).2.visibleRows = [] := by
  refine ⟨?_, rfl, rfl, rfl⟩
  decide

/-- C2 (amended): a checked command (`checked_select` or `checked_update`) on
an existing live handle that fails with an engine error returns the structured
error, but rolls back and releases the handle's ENTIRE scope — including work
done in the scope before the failing command — and consumes the handle; only
effects outside the handle's scope (enclosing scopes and work committed before
it) are preserved, and the resource owner and memory context captured at the
handle's creation are restored as current. -/
theorem checked_command_failure_releases_scope {P : Type}
    (h : SubTransaction P true) (d : pg_sys.ErrorData) (e : Engine)
    (s : Scope) (rest : List Scope)
    (hsr : h.should_release = true) (hs : e.scopes = s :: rest) :
    (checkedSelectC h (.bad d) e).1 = .error (.PostgresError d)
  ∧ (checkedSelectC h (.bad d) e).2.scopes = rest
  ∧ (checkedSelectC h (.bad d) e).2.base = e.base
  ∧ (checkedSelectC h (.bad d) e).2.currentResourceOwner = h.resource_owner
  ∧ (checkedSelectC h (.bad d) e).2.currentMemoryContext = h.memory_context
  ∧ (checkedUpdateC h (.bad d) e).1 = .error (.PostgresError d)
  ∧ (checkedUpdateC h (.bad d) e).2.scopes = rest
  ∧ (checkedUpdateC h (.bad d) e).2.base = e.base := by
  refine ⟨?_, ?_, ?_, ?_, ?_, ?_, ?_, ?_⟩ <;>
    simp [checkedSelectC, checkedUpdateC, checkedSelectR, checkedUpdateR,
          pgTryCatchOthers, execQuery, SubTransaction.drop,
          SubTransaction.rollback_on_drop, SubTransaction.internal_rollback,
          Engine.rollbackAndReleaseCurrentSubTransaction, Engine.flushErrorState,
          hsr, hs]

/-- Witness for C2 (amended) at the concrete scenario. -/
theorem checked_command_failure_releases_scope_witness :
    (checkedSelectC h0 (.bad d0) eInserted).2.base = eInserted.base
  ∧ (checkedUpdateC h0 (.bad d0) eInserted).2.scopes = [] :=
  ⟨(checked_command_failure_releases_scope h0 d0 eInserted ⟨1, [42]⟩ [] rfl rfl).2.2.1,
   (checked_command_failure_releases_scope h0 d0 eInserted ⟨1, [42]⟩ [] rfl rfl).2.2.2.2.2.2.1⟩

/-- C3: for a protected call whose operation raises the engine's non-local
failure signal, `catch_error` copies the pending structured error record into
an owned value, clears the engine's pending-error state, rolls the auxiliary
scope back (discarding the innermost scope — in particular everything done in
it since the boundary was entered — and restoring the captured resource owner
and memory context), and returns Err with the Foreign (Postgres) error; the
engine's error flag is never left set on return. -/
theorem catch_error_foreign_recovery {P R : Type}
    (subtxn : SubTransaction P true)
    (try_func : SubTransaction P true → Engine →
      Except Payload (R × SubTransaction P true) × Engine)
    (e e' : Engine) (d pd : pg_sys.ErrorData) (s : Scope) (rest : List Scope)
    (hrun : try_func (SubTransaction.internal_clone subtxn).2 e
        = (.error (.jump d), e'))
    (hpe : e'.pendingError = some pd)
    (hs : e'.scopes = s :: rest) :
    (catch_error subtxn try_func e).1
      = .error (Error.PG (PostgresError.fromErrorData pd))
  ∧ (catch_error subtxn try_func e).2.pendingError = none
  ∧ (catch_error subtxn try_func e).2.scopes = rest
  ∧ (catch_error subtxn try_func e).2.currentResourceOwner = subtxn.resource_owner
  ∧ (catch_error subtxn try_func e).2.currentMemoryContext = subtxn.memory_context := by
  simp only [SubTransaction.internal_clone] at hrun
  refine ⟨?_, ?_, ?_, ?_, ?_⟩ <;>
    simp [catch_error, SubTransaction.internal_clone, hrun, hpe, hs,
          Engine.copyErrorData, Engine.flushErrorState,
          Engine.setCurrentMemoryContext, Engine.curTransactionContext,
          SubTransaction.rollback, SubTransaction.drop,
          SubTransaction.internal_rollback,
          Engine.rollbackAndReleaseCurrentSubTransaction]

/-- Witness for C3 at a concrete boundary run. -/
theorem catch_error_foreign_recovery_witness :
    (catch_error h0 tfJump eOpened).1
      = .error (Error.PG (PostgresError.fromErrorData d0))
  ∧ (catch_error h0 tfJump eOpened).2.pendingError = none
  ∧ (catch_error h0 tfJump eOpened).2.scopes = [] :=
  ⟨(catch_error_foreign_recovery h0 tfJump eOpened
      { eOpened with pendingError := some d0 } d0 d0 ⟨1, []⟩ [] rfl rfl rfl).1,
   (catch_error_foreign_recovery h0 tfJump eOpened
      { eOpened with pendingError := some d0 } d0 d0 ⟨1, []⟩ [] rfl rfl rfl).2.1,
   (catch_error_foreign_recovery h0 tfJump eOpened
      { eOpened with pendingError := some d0 } d0 d0 ⟨1, []⟩ [] rfl rfl rfl).2.2.1⟩

/-- C5: for a protected call whose operation raises a native (non-engine)
failure — a panic payload that is not the engine's jump-context marker —
`catch_error` returns the payload wrapped unmodified as the Native (Rust)
variant, never as the Foreign (PG) variant, and `Error::into_postgres_error`
re-raises exactly that payload. -/
theorem catch_error_native_passthrough {P R : Type}
    (subtxn : SubTransaction P true)
    (try_func : SubTransaction P true → Engine →
      Except Payload (R × SubTransaction P true) × Engine)
    (e e' : Engine) (n : Nat)
    (hrun : try_func (SubTransaction.internal_clone subtxn).2 e
        = (.error (.native n), e')) :
    (catch_error subtxn try_func e).1 = .error (Error.Rust n)
  ∧ Error.into_postgres_error (Error.Rust n) = .error n
  ∧ ∀ err : PostgresError,
      (catch_error subtxn try_func e).1 ≠ .error (Error.PG err) := by
  simp only [SubTransaction.internal_clone] at hrun
  refine ⟨?_, rfl, ?_⟩ <;>
    simp [catch_error, SubTransaction.internal_clone, hrun]

/-- Witness for C5 at a concrete boundary run. -/
theorem catch_error_native_passthrough_witness :
    (catch_error h0 tfNative eOpened).1 = .error (Error.Rust 7)
  ∧ Error.into_postgres_error (Error.Rust 7) = .error 7 :=
  ⟨(catch_error_native_passthrough h0 tfNative eOpened eOpened 7 rfl).1,
   (catch_error_native_passthrough h0 tfNative eOpened eOpened 7 rfl).2.1⟩

/-- C6: for a protected call whose operation succeeds, `catch_error` returns
Ok with the operation's value unmodified and the handle with its
`should_release` bookkeeping restored from the auxiliary clone taken at entry
(the original handle's flag), while the auxiliary's own finalizer is disarmed
and never fires — the engine state is exactly what the operation left. -/
theorem catch_error_success_restores_handle {P R : Type}
    (subtxn : SubTransaction P true)
    (try_func : SubTransaction P true → Engine →
      Except Payload (R × SubTransaction P true) × Engine)
    (e e' : Engine) (r : R) (xact : SubTransaction P true)
    (hrun : try_func (SubTransaction.internal_clone subtxn).2 e
        = (.ok (r, xact), e')) :
    catch_error subtxn try_func e
      = (.ok (r, { xact with should_release := subtxn.should_release }), e') := by
  simp only [SubTransaction.internal_clone] at hrun
  simp [catch_error, SubTransaction.internal_clone, hrun, SubTransaction.drop]

/-- Witness for C6 at a concrete boundary run: the original handle comes back
unchanged (its disarmed flag restored to true) and the engine is untouched. -/
theorem catch_error_success_restores_handle_witness :
    catch_error h0 tfOk e0 = (.ok ((), h0), e0) :=
  catch_error_success_restores_handle h0 tfOk e0 e0 ()
    { h0 with should_release := false } rfl

/-- C10: the severity translation of the raw engine error record is total:
the five engine DEBUG levels all collapse to DEBUG5, the levels LOG through
PANIC map to their like-named counterparts, any unrecognized severity maps to
ERROR rather than failing, and a null diagnostic string pointer becomes None
rather than being dereferenced. -/
theorem postgres_error_severity_total (n : Nat) (d : pg_sys.ErrorData)
    (hn : n ∉ [pg_sys.DEBUG5, pg_sys.DEBUG4, pg_sys.DEBUG3, pg_sys.DEBUG2,
               pg_sys.DEBUG1, pg_sys.LOG, pg_sys.LOG_SERVER_ONLY, pg_sys.INFO,
               pg_sys.NOTICE, pg_sys.WARNING, pg_sys.ERROR, pg_sys.FATAL,
               pg_sys.PANIC])
    (hmsg : d.message = .null) :
    (elevelOf pg_sys.DEBUG1 = .DEBUG5 ∧ elevelOf pg_sys.DEBUG2 = .DEBUG5
      ∧ elevelOf pg_sys.DEBUG3 = .DEBUG5 ∧ elevelOf pg_sys.DEBUG4 = .DEBUG5
      ∧ elevelOf pg_sys.DEBUG5 = .DEBUG5)
  ∧ (elevelOf pg_sys.LOG = .LOG
      ∧ elevelOf pg_sys.LOG_SERVER_ONLY = .LOG_SERVER_ONLY
      ∧ elevelOf pg_sys.INFO = .INFO ∧ elevelOf pg_sys.NOTICE = .NOTICE
      ∧ elevelOf pg_sys.WARNING = .WARNING ∧ elevelOf pg_sys.ERROR = .ERROR
      ∧ elevelOf pg_sys.FATAL = .FATAL ∧ elevelOf pg_sys.PANIC = .PANIC)
  ∧ elevelOf n = .ERROR
  ∧ to_str .null = none
  ∧ (PostgresError.fromErrorData d).message = none := by
  refine ⟨by decide, by decide, ?_, rfl, ?_⟩
  · simp only [List.mem_cons, List.not_mem_nil, or_false, not_or] at hn
    obtain ⟨a1, a2, a3, a4, a5, a6, a7, a8, a9, a10, a11, a12, a13⟩ := hn
    simp [elevelOf, a1, a2, a3, a4, a5, a6, a7, a8, a9, a10, a11, a12, a13]
  · simp [PostgresError.fromErrorData, hmsg, to_str]

/-- Witness for C10 at a concrete unrecognized severity and a null message. -/
theorem postgres_error_severity_total_witness :
    elevelOf 99 = PgLogLevel.ERROR
  ∧ (PostgresError.fromErrorData pg_sys.ErrorData.blank).message = none :=
  ⟨(postgres_error_severity_total 99 pg_sys.ErrorData.blank (by decide) rfl).2.2.1,
   (postgres_error_severity_total 99 pg_sys.ErrorData.blank (by decide) rfl).2.2.2.2⟩

end Spiext
